import Mathlib

/-!
Verification development for the virtual-staging job pipeline
(`backend/app/services/generation.py` and `backend/app/services/llm_service.py`).

The pipeline coordinator `process_staging_job` is embedded as a pure function
over an environment of collaborators (persistence record lookup, the four
inference-stage functions, the storage upload).  Each collaborator that can
raise an exception is modelled as returning `Except String α`; a `.error e`
value corresponds to a raised exception whose stringified form is `e`.
Database commits are modelled by recording, in order, each committed snapshot
of the job row; storage writes are recorded as a list of attempted uploads.
Machine floats used for the progress percentage only ever take the integral
values 10, 30, 60, 80, 100, so the percentage is modelled as `Nat`; nullable
database columns are modelled as `Option`, with "populated / non-empty"
meaning `isSome`.
-/

/-- The persisted job row (`app.models.job.Job`), restricted to the fields the
pipeline reads or writes. -/
structure Job where
  status : String
  progress_percent : Nat
  current_step : String
  started_at : Option Nat
  completed_at : Option Nat
  result_url : Option String
  error_message : Option String
  room_type : String
  style_preset : String
  fix_white_balance : Bool
  wall_decorations : Bool
deriving Repr, DecidableEq

/-- The joined source image row (`app.models.image.Image`), restricted to the
field the pipeline reads. -/
structure SourceImage where
  original_url : String
deriving Repr, DecidableEq

/-- One attempted write to the object-storage collaborator
(`storage_service.upload_file` call). -/
structure Upload where
  bucket : String
  object_name : String
  data : List Nat
  contentType : String
deriving Repr, DecidableEq

/-- The collaborators of `process_staging_job`: the result of the joined
`select(Job, Image)` for the given job id, the four stage functions of
`llm_service`, the storage upload, the results-bucket setting, and the two
`datetime.utcnow()` readings. -/
structure CoordEnv where
  record : Option (Job × SourceImage)
  analyze_room : String → Except String String
  plan_furniture_placement : String → String → String → Bool → Except String String
  generate_staged_image_prompt :
    String → String → String → String → Bool → Bool → Except String String
  generate_image : String → String → Bool → Except String (List Nat)
  upload_file : String → String → List Nat → String → Except String String
  BUCKET_RESULTS : String
  now_start : Nat
  now_complete : Nat

/-- Shallow embedding of `process_staging_job` (generation.py lines 17-114).
Returns the final state of the job row (`none` when the joined record was not
found and nothing was touched), the list of committed job snapshots in commit
order, and the list of attempted storage uploads. -/
def process_staging_job (env : CoordEnv) (job_id : String) :
    Option Job × List Job × List Upload :=
  match env.record with
  | none => (none, [], [])
  | some (db_job, db_image) =>
    let j1 : Job :=
      { db_job with
        status := "in_progress"
        started_at := some env.now_start
        progress_percent := 10
        current_step := "Analyzing room layout..." }
    match env.analyze_room db_image.original_url with
    | Except.error e =>
      let jx : Job := { j1 with status := "error", error_message := some e }
      (some jx, [j1, jx], [])
    | Except.ok analysis =>
      let j2 : Job :=
        { j1 with
          progress_percent := 30
          current_step := "Detecting surfaces and depth..." }
      match env.plan_furniture_placement analysis db_job.room_type
          db_job.style_preset db_job.wall_decorations with
      | Except.error e =>
        let jx : Job := { j2 with status := "error", error_message := some e }
        (some jx, [j1, j2, jx], [])
      | Except.ok placement_plan =>
        let j3 : Job :=
          { j2 with
            progress_percent := 60
            current_step := "Generating furniture placement plan..." }
        match env.generate_staged_image_prompt db_image.original_url analysis
            placement_plan db_job.style_preset db_job.fix_white_balance
            db_job.wall_decorations with
        | Except.error e =>
          let jx : Job := { j3 with status := "error", error_message := some e }
          (some jx, [j1, j2, j3, jx], [])
        | Except.ok generation_prompt =>
          let j4 : Job :=
            { j3 with
              progress_percent := 80
              current_step := "Rendering final image..." }
          match env.generate_image generation_prompt db_image.original_url
              db_job.fix_white_balance with
          | Except.error e =>
            let jx : Job := { j4 with status := "error", error_message := some e }
            (some jx, [j1, j2, j3, j4, jx], [])
          | Except.ok image_data =>
            let up : Upload :=
              { bucket := env.BUCKET_RESULTS
                object_name := job_id ++ ".jpg"
                data := image_data
                contentType := "image/jpeg" }
            match env.upload_file env.BUCKET_RESULTS (job_id ++ ".jpg")
                image_data ("image/jpeg") with
            | Except.error e =>
              let jx : Job := { j4 with status := "error", error_message := some e }
              (some jx, [j1, j2, j3, j4, jx], [up])
            | Except.ok result_url =>
              let j5 : Job :=
                { j4 with
                  status := "completed"
                  progress_percent := 100
                  current_step := "Final rendering complete"
                  completed_at := some env.now_complete
                  result_url := some result_url }
              (some j5, [j1, j2, j3, j4, j5], [up])

/-- The five (percent, step label) pairs of the stage progression table. -/
def stage_table : List (Nat × String) :=
  [(10, "Analyzing room layout..."),
   (30, "Detecting surfaces and depth..."),
   (60, "Generating furniture placement plan..."),
   (80, "Rendering final image..."),
   (100, "Final rendering complete")]

/-- A fresh pending job as created externally, used by witnesses. -/
def sampleJob : Job :=
  { status := "pending"
    progress_percent := 0
    current_step := ""
    started_at := none
    completed_at := none
    result_url := none
    error_message := none
    room_type := "living room"
    style_preset := "scandinavian"
    fix_white_balance := true
    wall_decorations := false }

/-- A coordinator environment whose collaborators all succeed, used by
witnesses. -/
def okCoordEnv : CoordEnv :=
  { record := some (sampleJob, { original_url := "http://img" })
    analyze_room := fun _ => Except.ok ("analysis")
    plan_furniture_placement := fun _ _ _ _ => Except.ok ("plan")
    generate_staged_image_prompt := fun _ _ _ _ _ _ => Except.ok ("genprompt")
    generate_image := fun _ _ _ => Except.ok ([137, 80])
    upload_file := fun _ _ _ _ => Except.ok ("http://results/j1.jpg")
    BUCKET_RESULTS := "results"
    now_start := 100
    now_complete := 200 }

/-- Variant of `okCoordEnv` whose analyzer stage raises, used by witnesses. -/
def analyzerFailEnv : CoordEnv :=
  { okCoordEnv with analyze_room := fun _ => Except.error ("Timeout: upstream") }

/-- Claim C1: for every job that reaches a terminal status (completed or
error) under `process_staging_job`, exactly one of `result_url` and
`error_message` is populated: `result_url` is set and `error_message` empty
when status is completed, and `error_message` is set and `result_url` empty
when status is error.  The job starts in the externally-created pending state
(both fields unpopulated). -/
theorem c1_terminal_exactly_one (env : CoordEnv) (job_id : String)
    (j0 : Job) (img : SourceImage)
    (hrec : env.record = some (j0, img))
    (hres : j0.result_url = none) (herr : j0.error_message = none)
    (jf : Job) (hf : (process_staging_job env job_id).1 = some jf) :
    (jf.status = "completed" ∨ jf.status = "error") ∧
    (jf.status = "completed" → jf.result_url.isSome ∧ jf.error_message = none) ∧
    (jf.status = "error" → jf.error_message.isSome ∧ jf.result_url = none) := by
  cases h1 : env.analyze_room img.original_url with
  | error e =>
    simp only [process_staging_job, hrec, h1] at hf
    cases hf
    simp [hres, herr]
  | ok analysis =>
    cases h2 : env.plan_furniture_placement analysis j0.room_type
        j0.style_preset j0.wall_decorations with
    | error e =>
      simp only [process_staging_job, hrec, h1, h2] at hf
      cases hf
      simp [hres, herr]
    | ok placement_plan =>
      cases h3 : env.generate_staged_image_prompt img.original_url analysis
          placement_plan j0.style_preset j0.fix_white_balance
          j0.wall_decorations with
      | error e =>
        simp only [process_staging_job, hrec, h1, h2, h3] at hf
        cases hf
        simp [hres, herr]
      | ok generation_prompt =>
        cases h4 : env.generate_image generation_prompt img.original_url
            j0.fix_white_balance with
        | error e =>
          simp only [process_staging_job, hrec, h1, h2, h3, h4] at hf
          cases hf
          simp [hres, herr]
        | ok image_data =>
          cases h5 : env.upload_file env.BUCKET_RESULTS (job_id ++ ".jpg")
              image_data ("image/jpeg") with
          | error e =>
            simp only [process_staging_job, hrec, h1, h2, h3, h4, h5] at hf
            cases hf
            simp [hres, herr]
          | ok result_url =>
            simp only [process_staging_job, hrec, h1, h2, h3, h4, h5] at hf
            cases hf
            simp [hres, herr]

/-- The final job row produced by `okCoordEnv`, used by the C1 witness. -/
def c1FinalJob : Job :=
  { status := "completed"
    progress_percent := 100
    current_step := "Final rendering complete"
    started_at := some 100
    completed_at := some 200
    result_url := some ("http://results/j1.jpg")
    error_message := none
    room_type := "living room"
    style_preset := "scandinavian"
    fix_white_balance := true
    wall_decorations := false }

/-- Witness for C1 at a concrete all-stages-succeed environment. -/
theorem c1_terminal_exactly_one_witness :
    (c1FinalJob.status = "completed" ∨ c1FinalJob.status = "error") ∧
    (c1FinalJob.status = "completed" →
      c1FinalJob.result_url.isSome ∧ c1FinalJob.error_message = none) ∧
    (c1FinalJob.status = "error" →
      c1FinalJob.error_message.isSome ∧ c1FinalJob.result_url = none) :=
  c1_terminal_exactly_one okCoordEnv ("j1") sampleJob
    { original_url := "http://img" } rfl rfl rfl c1FinalJob rfl

/-- Claim C2: every exception raised by a stage function, the storage upload,
or an image fetch inside the `try` block is caught at the top level: the
coordinator sets status to error and `error_message` to the stringified
exception, commits, and returns normally (the embedding is a total function,
so no exception escapes); all other job fields keep the values of the last
committed snapshot, so an Analyzer failure leaves progress at 10%. -/
theorem c2_error_capture (env : CoordEnv) (job_id : String)
    (j0 : Job) (img : SourceImage)
    (hrec : env.record = some (j0, img)) :
    (∀ e, env.analyze_room img.original_url = Except.error e →
      (process_staging_job env job_id).1 = some
        { j0 with
          status := "error"
          started_at := some env.now_start
          progress_percent := 10
          current_step := "Analyzing room layout..."
          error_message := some e }) ∧
    (∀ analysis e, env.analyze_room img.original_url = Except.ok analysis →
      env.plan_furniture_placement analysis j0.room_type j0.style_preset
        j0.wall_decorations = Except.error e →
      (process_staging_job env job_id).1 = some
        { j0 with
          status := "error"
          started_at := some env.now_start
          progress_percent := 30
          current_step := "Detecting surfaces and depth..."
          error_message := some e }) ∧
    (∀ analysis placement_plan e,
      env.analyze_room img.original_url = Except.ok analysis →
      env.plan_furniture_placement analysis j0.room_type j0.style_preset
        j0.wall_decorations = Except.ok placement_plan →
      env.generate_staged_image_prompt img.original_url analysis placement_plan
        j0.style_preset j0.fix_white_balance j0.wall_decorations =
        Except.error e →
      (process_staging_job env job_id).1 = some
        { j0 with
          status := "error"
          started_at := some env.now_start
          progress_percent := 60
          current_step := "Generating furniture placement plan..."
          error_message := some e }) ∧
    (∀ analysis placement_plan generation_prompt e,
      env.analyze_room img.original_url = Except.ok analysis →
      env.plan_furniture_placement analysis j0.room_type j0.style_preset
        j0.wall_decorations = Except.ok placement_plan →
      env.generate_staged_image_prompt img.original_url analysis placement_plan
        j0.style_preset j0.fix_white_balance j0.wall_decorations =
        Except.ok generation_prompt →
      env.generate_image generation_prompt img.original_url
        j0.fix_white_balance = Except.error e →
      (process_staging_job env job_id).1 = some
        { j0 with
          status := "error"
          started_at := some env.now_start
          progress_percent := 80
          current_step := "Rendering final image..."
          error_message := some e }) ∧
    (∀ analysis placement_plan generation_prompt image_data e,
      env.analyze_room img.original_url = Except.ok analysis →
      env.plan_furniture_placement analysis j0.room_type j0.style_preset
        j0.wall_decorations = Except.ok placement_plan →
      env.generate_staged_image_prompt img.original_url analysis placement_plan
        j0.style_preset j0.fix_white_balance j0.wall_decorations =
        Except.ok generation_prompt →
      env.generate_image generation_prompt img.original_url
        j0.fix_white_balance = Except.ok image_data →
      env.upload_file env.BUCKET_RESULTS (job_id ++ ".jpg") image_data
        ("image/jpeg") = Except.error e →
      (process_staging_job env job_id).1 = some
        { j0 with
          status := "error"
          started_at := some env.now_start
          progress_percent := 80
          current_step := "Rendering final image..."
          error_message := some e }) := by
  refine ⟨?_, ?_, ?_, ?_, ?_⟩
  · intro e h1
    simp [process_staging_job, hrec, h1]
  · intro analysis e h1 h2
    simp [process_staging_job, hrec, h1, h2]
  · intro analysis placement_plan e h1 h2 h3
    simp [process_staging_job, hrec, h1, h2, h3]
  · intro analysis placement_plan generation_prompt e h1 h2 h3 h4
    simp [process_staging_job, hrec, h1, h2, h3, h4]
  · intro analysis placement_plan generation_prompt image_data e h1 h2 h3 h4 h5
    simp [process_staging_job, hrec, h1, h2, h3, h4, h5]

/-- Witness for C2: an analyzer failure at a concrete environment freezes the
job at 10% with the stringified exception recorded. -/
theorem c2_error_capture_witness :
    (process_staging_job analyzerFailEnv ("j1")).1 = some
      { sampleJob with
        status := "error"
        started_at := some 100
        progress_percent := 10
        current_step := "Analyzing room layout..."
        error_message := some ("Timeout: upstream") } :=
  (c2_error_capture analyzerFailEnv ("j1") sampleJob
    { original_url := "http://img" } rfl).1 ("Timeout: upstream") rfl

/-- Claim C3: within a single run, the committed progress values are
monotonically non-decreasing, and every committed snapshot carries one of the
(percent, step label) pairs of the stage progression table. -/
theorem c3_progress_table (env : CoordEnv) (job_id : String) :
    List.Chain' (· ≤ ·)
      (((process_staging_job env job_id).2.1).map Job.progress_percent) ∧
    ∀ j ∈ (process_staging_job env job_id).2.1,
      (j.progress_percent, j.current_step) ∈ stage_table := by
  cases hr : env.record with
  | none => simp [process_staging_job, hr]
  | some rec =>
    obtain ⟨j0, img⟩ := rec
    cases h1 : env.analyze_room img.original_url with
    | error e => simp [process_staging_job, hr, h1, stage_table]
    | ok analysis =>
      cases h2 : env.plan_furniture_placement analysis j0.room_type
          j0.style_preset j0.wall_decorations with
      | error e => simp [process_staging_job, hr, h1, h2, stage_table]
      | ok placement_plan =>
        cases h3 : env.generate_staged_image_prompt img.original_url analysis
            placement_plan j0.style_preset j0.fix_white_balance
            j0.wall_decorations with
        | error e => simp [process_staging_job, hr, h1, h2, h3, stage_table]
        | ok generation_prompt =>
          cases h4 : env.generate_image generation_prompt img.original_url
              j0.fix_white_balance with
          | error e => simp [process_staging_job, hr, h1, h2, h3, h4, stage_table]
          | ok image_data =>
            cases h5 : env.upload_file env.BUCKET_RESULTS (job_id ++ ".jpg")
                image_data ("image/jpeg") with
            | error e =>
              simp [process_staging_job, hr, h1, h2, h3, h4, h5, stage_table]
            | ok result_url =>
              simp [process_staging_job, hr, h1, h2, h3, h4, h5, stage_table]

/-- Claim C4: when no joined (Job, SourceImage) record exists for the id,
`process_staging_job` mutates no job fields, performs no storage write, and
returns without raising. -/
theorem c4_not_found (env : CoordEnv) (job_id : String)
    (h : env.record = none) :
    process_staging_job env job_id = (none, [], []) := by
  simp [process_staging_job, h]

/-- Environment with no joined record, used by the C4 witness. -/
def notFoundEnv : CoordEnv := { okCoordEnv with record := none }

/-- Witness for C4 at a concrete environment. -/
theorem c4_not_found_witness :
    process_staging_job notFoundEnv ("j1") = (none, [], []) :=
  c4_not_found notFoundEnv ("j1") rfl

/-- Claim C10: on the success path the final artifact is stored under the key
`job_id ++ ".jpg"` in the results bucket with content type "image/jpeg",
whatever bytes the renderer returned, and the final job's `result_url` is the
URL returned by that upload. -/
theorem c10_upload_key (env : CoordEnv) (job_id : String)
    (j0 : Job) (img : SourceImage)
    (analysis placement_plan generation_prompt : String)
    (image_data : List Nat) (u : String)
    (hrec : env.record = some (j0, img))
    (h1 : env.analyze_room img.original_url = Except.ok analysis)
    (h2 : env.plan_furniture_placement analysis j0.room_type j0.style_preset
      j0.wall_decorations = Except.ok placement_plan)
    (h3 : env.generate_staged_image_prompt img.original_url analysis
      placement_plan j0.style_preset j0.fix_white_balance
      j0.wall_decorations = Except.ok generation_prompt)
    (h4 : env.generate_image generation_prompt img.original_url
      j0.fix_white_balance = Except.ok image_data)
    (h5 : env.upload_file env.BUCKET_RESULTS (job_id ++ ".jpg") image_data
      ("image/jpeg") = Except.ok u) :
    (process_staging_job env job_id).2.2 =
      [{ bucket := env.BUCKET_RESULTS, object_name := job_id ++ ".jpg",
         data := image_data, contentType := "image/jpeg" }] ∧
    ∃ jf, (process_staging_job env job_id).1 = some jf ∧
      jf.status = "completed" ∧ jf.result_url = some u := by
  constructor
  · simp [process_staging_job, hrec, h1, h2, h3, h4, h5]
  · refine ⟨{ j0 with
      status := "completed"
      started_at := some env.now_start
      progress_percent := 100
      current_step := "Final rendering complete"
      completed_at := some env.now_complete
      result_url := some u }, ?_, rfl, rfl⟩
    simp [process_staging_job, hrec, h1, h2, h3, h4, h5]

/-- Witness for C10 at a concrete all-stages-succeed environment. -/
theorem c10_upload_key_witness :
    (process_staging_job okCoordEnv ("j1")).2.2 =
      [{ bucket := okCoordEnv.BUCKET_RESULTS, object_name := "j1" ++ ".jpg",
         data := [137, 80], contentType := "image/jpeg" }] ∧
    ∃ jf, (process_staging_job okCoordEnv ("j1")).1 = some jf ∧
      jf.status = "completed" ∧
      jf.result_url = some ("http://results/j1.jpg") :=
  c10_upload_key okCoordEnv ("j1") sampleJob { original_url := "http://img" }
    ("analysis") ("plan") ("genprompt") [137, 80] ("http://results/j1.jpg")
    rfl rfl rfl rfl rfl rfl

/-! ### Character-level string primitives

The Python string operations used by `llm_service` (`startswith`,
`str.replace`, `split(sep, 1)`) are modelled executably on the character
lists underlying `String`, so that concrete runs reduce inside the kernel. -/

/-- `isLead p s`: `p` is a leading segment (Python prefix) of `s`. -/
def isLead : List Char → List Char → Bool
  | [], _ => true
  | _ :: _, [] => false
  | a :: p, b :: s => a == b && isLead p s

/-- Python `s.startswith(p)`. -/
def pyStartsWith (s p : String) : Bool :=
  isLead p.data s.data

/-- Fuelled worker for `pyReplace`; the fuel is the length of the scanned
list, enough because each step consumes at least one character. -/
def pyReplaceAux (old new : List Char) : Nat → List Char → List Char
  | 0, s => s
  | _ + 1, [] => []
  | fuel + 1, c :: t =>
    if isLead old (c :: t) then
      new ++ pyReplaceAux old new fuel (t.drop (old.length - 1))
    else c :: pyReplaceAux old new fuel t

/-- Python `s.replace(old, new)` for non-empty `old`: replaces every
non-overlapping occurrence, scanning left to right. -/
def pyReplace (s old new : String) : String :=
  String.mk (pyReplaceAux old.data new.data s.data.length s.data)

/-- The part of `s` before the first occurrence of `sep`, and the part after
it, when `sep` occurs in `s`. -/
def findSplit (sep : List Char) : List Char → Option (List Char × List Char)
  | [] => none
  | c :: t =>
    if isLead sep (c :: t) then some ([], (c :: t).drop sep.length)
    else
      match findSplit sep t with
      | some (a, b) => some (c :: a, b)
      | none => none

/-- Python `s.split(sep, 1)`: split at the first occurrence of `sep` only. -/
def pySplitOnce (s sep : String) : List String :=
  match findSplit sep.data s.data with
  | some (a, b) => [String.mk a, String.mk b]
  | none => [s]

/-- Collaborators of the image-fetch path of `_fetch_and_encode_image`
(llm_service.py lines 24-47): the two storage endpoint settings, the storage
read (`storage_service.get_object_data`, which may raise), and a plain HTTP
GET whose `Except` result models `client.get` followed by
`raise_for_status` (a non-success status code is an `.error`). -/
structure FetchEnv where
  STORAGE_ENDPOINT : String
  STORAGE_PUBLIC_ENDPOINT : String
  get_object_data : String → String → Except String (List Nat)
  http_get : String → Except String (List Nat)

/-- The matched storage endpoint prefix of a URL (llm_service.py lines
27-34); the internal endpoint is checked before the public one. -/
def storage_target (fenv : FetchEnv) (image_url : String) : Option String :=
  let internalPre := "http://" ++ fenv.STORAGE_ENDPOINT ++ "/"
  let publicPre := "http://" ++ fenv.STORAGE_PUBLIC_ENDPOINT ++ "/"
  if pyStartsWith image_url internalPre then some internalPre
  else if pyStartsWith image_url publicPre then some publicPre
  else none

/-- Fetch half of `_fetch_and_encode_image` (llm_service.py lines 24-47).
Returns the fetched bytes together with a flag recording whether a plain
HTTP GET was performed (`true`) or the bytes came from the storage
collaborator (`false`).  As in the source, the matched prefix is removed
from the URL with `str.replace` (all occurrences) and the remainder is split
at the first "/"; when that split does not yield exactly two parts the
content stays unset and the code falls through to the HTTP GET. -/
def fetch_image_content (fenv : FetchEnv) (image_url : String) :
    Except String (List Nat × Bool) :=
  match storage_target fenv image_url with
  | some tp =>
    match pySplitOnce (pyReplace image_url tp ("")) ("/") with
    | [bucket, object_name] =>
      (fenv.get_object_data bucket object_name).map (fun c => (c, false))
    | _ => (fenv.http_get image_url).map (fun c => (c, true))
  | none => (fenv.http_get image_url).map (fun c => (c, true))

/-- Concrete fetch environment for the C5 counterexample and witness: the
storage read returns byte 9, the HTTP GET returns byte 7. -/
def c5Env : FetchEnv :=
  { STORAGE_ENDPOINT := "s"
    STORAGE_PUBLIC_ENDPOINT := "p"
    get_object_data := fun _ _ => Except.ok ([9])
    http_get := fun _ => Except.ok ([7]) }

/-- Counterexample to claim C5 as stated: the URL "http://s/bucketonly"
starts with the internal storage endpoint prefix, yet the helper performs a
plain HTTP GET (flag `true`, bytes [7] from the HTTP collaborator rather
than [9] from storage), because the remainder after removing the prefix
contains no "/" and the storage branch is skipped. -/
theorem c5_counterexample :
    pyStartsWith ("http://s/bucketonly")
      ("http://" ++ c5Env.STORAGE_ENDPOINT ++ "/") = true ∧
    fetch_image_content c5Env ("http://s/bucketonly") =
      Except.ok ([7], true) := by
  constructor
  · decide
  · rfl

/-- Claim C5 (amended): if the URL starts with a known storage endpoint
prefix (internal checked before public) and the URL with every occurrence of
that prefix deleted splits at the first "/" into a bucket and an object
name, the bytes are read from the storage collaborator with no HTTP request;
otherwise - including prefix-matching URLs whose remainder contains no "/" -
the bytes are obtained by a plain HTTP GET that fails on a non-success
status code. -/
theorem c5_fetch_dispatch (fenv : FetchEnv) (image_url : String) :
    (∀ tp bucket object_name, storage_target fenv image_url = some tp →
      pySplitOnce (pyReplace image_url tp ("")) ("/") =
        [bucket, object_name] →
      fetch_image_content fenv image_url =
        (fenv.get_object_data bucket object_name).map (fun c => (c, false))) ∧
    (∀ tp r, storage_target fenv image_url = some tp →
      pySplitOnce (pyReplace image_url tp ("")) ("/") = [r] →
      fetch_image_content fenv image_url =
        (fenv.http_get image_url).map (fun c => (c, true))) ∧
    (storage_target fenv image_url = none →
      fetch_image_content fenv image_url =
        (fenv.http_get image_url).map (fun c => (c, true))) := by
  refine ⟨?_, ?_, ?_⟩
  · intro tp bucket object_name h1 h2
    simp [fetch_image_content, h1, h2]
  · intro tp r h1 h2
    simp [fetch_image_content, h1, h2]
  · intro h1
    simp [fetch_image_content, h1]

/-- Witness for the amended C5 at a concrete storage-prefixed URL with a
bucket and object name. -/
theorem c5_fetch_dispatch_witness :
    fetch_image_content c5Env ("http://s/b/o") =
      (c5Env.get_object_data ("b") ("o")).map (fun c => (c, false)) :=
  (c5_fetch_dispatch c5Env ("http://s/b/o")).1 ("http://s/") ("b") ("o")
    (by decide) (by decide)

/-! ### Base64 and the imaging collaborator -/

/-- The standard base64 alphabet. -/
def b64chars : List Char :=
  ("ABCDEFGHIJKLMNOPQRSTUVWXYZabcdefghijklmnopqrstuvwxyz0123456789+/").data

/-- Digit of the standard base64 alphabet. -/
def b64digit (n : Nat) : Char := b64chars.getD n ('A')

/-- Standard base64 encoding of a byte list, three bytes to four digits with
"=" padding (Python `base64.b64encode`). -/
def b64encodeChars : List Nat → List Char
  | [] => []
  | [a] => [b64digit (a / 4), b64digit (a % 4 * 16), '=', '=']
  | [a, b] =>
    [b64digit (a / 4), b64digit (a % 4 * 16 + b / 16), b64digit (b % 16 * 4), '=']
  | a :: b :: c :: rest =>
    b64digit (a / 4) :: b64digit (a % 4 * 16 + b / 16) ::
    b64digit (b % 16 * 4 + c / 64) :: b64digit (c % 64) :: b64encodeChars rest

/-- Python `base64.b64encode(..).decode('utf-8')`. -/
def b64encode (bs : List Nat) : String := String.mk (b64encodeChars bs)

/-- The decoded form of an image payload as reported by the external imaging
collaborator: pixel dimensions and the detected format tag (`none` when the
decoder cannot name the format). -/
structure DecodedImage where
  width : Nat
  height : Nat
  format : Option String
deriving Repr, DecidableEq

/-- The external imaging collaborator (the spec lists decode / downscale /
re-encode as an external utility): `decode` models `Image.open` (`none`
models a raised decode exception), `save` models `img.save` re-encoding the
image in the given format name. -/
structure PilEnv where
  decode : List Nat → Option DecodedImage
  save : DecodedImage → String → List Nat

/-- Python falsiness defaulting of `img.format` (`fmt = img.format if
img.format else 'JPEG'`, llm_service.py line 60). -/
def pyFormatName : Option String → String
  | none => "JPEG"
  | some f => if f = "" then "JPEG" else f

/-- Media type chosen from the decoded format (llm_service.py lines 64-68). -/
def media_of (fmt : Option String) : String :=
  if fmt = some ("PNG") then "image/png"
  else if fmt = some ("WEBP") then "image/webp"
  else "image/jpeg"

/-- New width in the width-rounding branch of the imaging library's
`thumbnail` fit: the candidates are the floor and the ceiling of
`B * w / h`, the one whose aspect error `|w/h - n/B|` is smaller wins (ties
to the floor), and the result is at least 1.  The rational comparison is
written cross-multiplied so everything is exact natural arithmetic. -/
def pil_round_x (B w h : ℕ) : ℕ :=
  let num := B * w
  let f := num / h
  let c := (num + h - 1) / h
  let pick := if num - f * h ≤ c * h - num then f else c
  max pick 1

/-- New height in the height-rounding branch of the imaging library's
`thumbnail` fit: candidates floor and ceiling of `B * h / w`, compared by
aspect error `|w/h - B/n|` (a candidate of 0 counts as error 0, ties to the
floor), result at least 1; comparisons cross-multiplied as above. -/
def pil_round_y (B w h : ℕ) : ℕ :=
  let num := B * h
  let f := num / w
  let c := (num + w - 1) / w
  let pick :=
    if f = 0 then f
    else if c * (num - w * f) ≤ f * (w * c - num) then f else c
  max pick 1

/-- The dimensions produced by the imaging collaborator's
`thumbnail((bound, bound))` fit, modelled from its documented algorithm: no
change when the image already fits, otherwise the side with the larger
relative size is set to `bound` and the other side is rounded to preserve
the aspect ratio (the `x`-branch is taken when `1 ≥ w/h`, i.e. `h ≥ w`). -/
def pil_thumbnail (w h bound : ℕ) : ℕ × ℕ :=
  if bound ≥ w ∧ bound ≥ h then (w, h)
  else if h ≥ w then (pil_round_x bound w h, bound)
  else (bound, pil_round_y bound w h)

/-- Processing half of `_fetch_and_encode_image` (llm_service.py lines
49-77): decode; if either dimension exceeds 2160, thumbnail to the 2160
bound and re-encode in the original format (default JPEG); choose the media
type from the decoded format; on decode failure fall back to the original
bytes as JPEG with dimensions (0, 0).  Returns
(media type, base64 payload, width, height). -/
def process_image_content (penv : PilEnv) (image_content : List Nat) :
    String × String × Nat × Nat :=
  match penv.decode image_content with
  | some img =>
    if 2160 < img.width ∨ 2160 < img.height then
      let wh := pil_thumbnail img.width img.height 2160
      let fmt := pyFormatName img.format
      let buffer := penv.save
        { width := wh.1, height := wh.2, format := img.format } fmt
      (media_of img.format, b64encode buffer, wh.1, wh.2)
    else
      (media_of img.format, b64encode image_content, img.width, img.height)
  | none => ("image/jpeg", b64encode image_content, 0, 0)

/-- All of `_fetch_and_encode_image` (llm_service.py lines 18-77): fetch,
then decode/resize/encode. -/
def fetch_and_encode (fenv : FetchEnv) (penv : PilEnv) (image_url : String) :
    Except String (String × String × Nat × Nat) :=
  match fetch_image_content fenv image_url with
  | Except.error e => Except.error e
  | Except.ok (content, _) => Except.ok (process_image_content penv content)

/-- Both rounding candidates of a thumbnail branch stay at most `B` and
within one denominator of the exact rational `B * a / b`. -/
theorem pil_pick_bounds (B a b : ℕ) (hB : 1 ≤ B) (ha : 1 ≤ a) (hb : 1 ≤ b)
    (hab : a ≤ b) (pick : ℕ)
    (hp : pick = B * a / b ∨ pick = (B * a + b - 1) / b) :
    max pick 1 ≤ B ∧ |(max pick 1 * b : ℤ) - B * a| ≤ (b : ℤ) := by
  have hXb : B * a ≤ B * b := Nat.mul_le_mul_left B hab
  have hX1 : 1 ≤ B * a := Nat.mul_pos (by omega) (by omega)
  have ef := Nat.div_add_mod (B * a) b
  rw [Nat.mul_comm] at ef
  have mf : (B * a) % b < b := Nat.mod_lt _ (by omega)
  have hf_le : B * a / b ≤ B := by
    have h1 : B * a / b ≤ B * b / b := Nat.div_le_div_right hXb
    rwa [Nat.mul_div_cancel B (by omega : 0 < b)] at h1
  have ec := Nat.div_add_mod (B * a + b - 1) b
  rw [Nat.mul_comm] at ec
  have mc : (B * a + b - 1) % b < b := Nat.mod_lt _ (by omega)
  have hc_le : (B * a + b - 1) / b ≤ B := by
    have h3 : (B * a + b - 1) / b ≤ (b - 1 + B * b) / b :=
      Nat.div_le_div_right (by omega)
    rwa [Nat.add_mul_div_right _ _ (by omega : 0 < b),
      Nat.div_eq_of_lt (by omega : b - 1 < b), Nat.zero_add] at h3
  rcases hp with h | h
  · subst h
    rcases Nat.eq_zero_or_pos (B * a / b) with hz | hpos
    · rw [hz] at ef ⊢
      rw [Nat.zero_max]
      constructor
      · omega
      · rw [abs_le]
        constructor <;> omega
    · rw [Nat.max_eq_left hpos]
      constructor
      · exact hf_le
      · rw [abs_le]
        constructor <;> omega
  · subst h
    have hcpos : 1 ≤ (B * a + b - 1) / b := by
      rcases Nat.eq_zero_or_pos ((B * a + b - 1) / b) with hz | hpos
      · rw [hz] at ec; omega
      · exact hpos
    rw [Nat.max_eq_left hcpos]
    constructor
    · exact hc_le
    · rw [abs_le]
      constructor <;> omega

/-- The width branch picks one of the two rounding candidates. -/
theorem pil_round_x_cases (B w h : ℕ) :
    pil_round_x B w h = max (B * w / h) 1 ∨
    pil_round_x B w h = max ((B * w + h - 1) / h) 1 := by
  by_cases hc :
      B * w - B * w / h * h ≤ (B * w + h - 1) / h * h - B * w
  · left; simp [pil_round_x, hc]
  · right; simp [pil_round_x, hc]

/-- The height branch picks one of the two rounding candidates. -/
theorem pil_round_y_cases (B w h : ℕ) :
    pil_round_y B w h = max (B * h / w) 1 ∨
    pil_round_y B w h = max ((B * h + w - 1) / w) 1 := by
  by_cases hz : B * h / w = 0
  · left; simp [pil_round_y, hz]
  · by_cases hc :
        (B * h + w - 1) / w * (B * h - w * (B * h / w)) ≤
        B * h / w * (w * ((B * h + w - 1) / w) - B * h)
    · left; simp [pil_round_y, hz, hc]
    · right; simp [pil_round_y, hz, hc]

/-- The thumbnail fit of an oversized image makes the larger output
dimension exactly 2160 and keeps the other within one rounding unit of the
exact aspect-preserving value. -/
theorem pil_thumbnail_bounds (w h : ℕ) (hw : 1 ≤ w) (hh : 1 ≤ h)
    (hbig : 2160 < w ∨ 2160 < h) :
    max (pil_thumbnail w h 2160).1 (pil_thumbnail w h 2160).2 = 2160 ∧
    (w ≤ h → (pil_thumbnail w h 2160).2 = 2160 ∧
      |((pil_thumbnail w h 2160).1 : ℤ) * h - 2160 * w| ≤ (h : ℤ)) ∧
    (h < w → (pil_thumbnail w h 2160).1 = 2160 ∧
      |((pil_thumbnail w h 2160).2 : ℤ) * w - 2160 * h| ≤ (w : ℤ)) := by
  have hnot : ¬ (2160 ≥ w ∧ 2160 ≥ h) := by omega
  by_cases hwh : h ≥ w
  · have hx : pil_thumbnail w h 2160 = (pil_round_x 2160 w h, 2160) := by
      simp [pil_thumbnail, hnot, hwh]
    rw [hx]
    have hb : max (pil_round_x 2160 w h) 1 ≤ 2160 ∧
        |(max (pil_round_x 2160 w h) 1 * h : ℤ) - 2160 * w| ≤ (h : ℤ) := by
      rcases pil_round_x_cases 2160 w h with hcase | hcase
      · have := pil_pick_bounds 2160 w h (by omega) hw hh hwh
          (2160 * w / h) (Or.inl rfl)
        rw [hcase]
        rw [max_assoc, max_self]
        exact_mod_cast this
      · have := pil_pick_bounds 2160 w h (by omega) hw hh hwh
          ((2160 * w + h - 1) / h) (Or.inr rfl)
        rw [hcase]
        rw [max_assoc, max_self]
        exact_mod_cast this
    refine ⟨?_, fun _ => ⟨rfl, ?_⟩, fun hlt => absurd hwh (by omega)⟩
    · have h1 : pil_round_x 2160 w h ≤ 2160 := by
        have := hb.1
        have h2 : 1 ≤ pil_round_x 2160 w h := by
          rcases pil_round_x_cases 2160 w h with hcase | hcase <;>
            rw [hcase] <;> omega
        omega
      simp [max_eq_right h1]
    · have h2 : 1 ≤ pil_round_x 2160 w h := by
        rcases pil_round_x_cases 2160 w h with hcase | hcase <;>
          rw [hcase] <;> omega
      have := hb.2
      rwa [Nat.max_eq_left h2] at this
  · have hy : pil_thumbnail w h 2160 = (2160, pil_round_y 2160 w h) := by
      simp [pil_thumbnail, hnot, hwh]
    rw [hy]
    have hb : max (pil_round_y 2160 w h) 1 ≤ 2160 ∧
        |(max (pil_round_y 2160 w h) 1 * w : ℤ) - 2160 * h| ≤ (w : ℤ) := by
      rcases pil_round_y_cases 2160 w h with hcase | hcase
      · have := pil_pick_bounds 2160 h w (by omega) hh hw (by omega)
          (2160 * h / w) (Or.inl rfl)
        rw [hcase]
        rw [max_assoc, max_self]
        exact_mod_cast this
      · have := pil_pick_bounds 2160 h w (by omega) hh hw (by omega)
          ((2160 * h + w - 1) / w) (Or.inr rfl)
        rw [hcase]
        rw [max_assoc, max_self]
        exact_mod_cast this
    refine ⟨?_, fun hle => absurd hle (by omega), fun _ => ⟨rfl, ?_⟩⟩
    · have h1 : pil_round_y 2160 w h ≤ 2160 := by
        have := hb.1
        have h2 : 1 ≤ pil_round_y 2160 w h := by
          rcases pil_round_y_cases 2160 w h with hcase | hcase <;>
            rw [hcase] <;> omega
        omega
      simp [max_eq_left h1]
    · have h2 : 1 ≤ pil_round_y 2160 w h := by
        rcases pil_round_y_cases 2160 w h with hcase | hcase <;>
          rw [hcase] <;> omega
      have := hb.2
      rwa [Nat.max_eq_left h2] at this

/-- Claim C6: for every payload processed by the fetch/encode helper: a
decodable image with both dimensions at most 2160 is returned unchanged with
its dimensions and a media type matching the decoded format (PNG/WEBP/else
JPEG); an oversized image is thumbnailed so the larger dimension is exactly
2160 with the other side within one rounding unit of the exact aspect ratio,
re-encoded in the original format (default JPEG); an undecodable payload is
returned as JPEG, base64 of the original bytes, with dimensions (0, 0). -/
theorem c6_image_processing (penv : PilEnv) (image_content : List Nat) :
    (∀ img, penv.decode image_content = some img →
      img.width ≤ 2160 → img.height ≤ 2160 →
      process_image_content penv image_content =
        (media_of img.format, b64encode image_content,
         img.width, img.height)) ∧
    (∀ img, penv.decode image_content = some img →
      1 ≤ img.width → 1 ≤ img.height →
      (2160 < img.width ∨ 2160 < img.height) →
      process_image_content penv image_content =
        (media_of img.format,
         b64encode (penv.save
           { width := (pil_thumbnail img.width img.height 2160).1
             height := (pil_thumbnail img.width img.height 2160).2
             format := img.format } (pyFormatName img.format)),
         (pil_thumbnail img.width img.height 2160).1,
         (pil_thumbnail img.width img.height 2160).2) ∧
      max (pil_thumbnail img.width img.height 2160).1
        (pil_thumbnail img.width img.height 2160).2 = 2160 ∧
      (img.width ≤ img.height →
        |((pil_thumbnail img.width img.height 2160).1 : ℤ) * img.height -
          2160 * img.width| ≤ (img.height : ℤ)) ∧
      (img.height < img.width →
        |((pil_thumbnail img.width img.height 2160).2 : ℤ) * img.width -
          2160 * img.height| ≤ (img.width : ℤ))) ∧
    (penv.decode image_content = none →
      process_image_content penv image_content =
        ("image/jpeg", b64encode image_content, 0, 0)) := by
  refine ⟨?_, ?_, ?_⟩
  · intro img hdec h1 h2
    simp [process_image_content, hdec,
      show ¬ (2160 < img.width ∨ 2160 < img.height) by omega]
  · intro img hdec hw hh hbig
    have hb := pil_thumbnail_bounds img.width img.height hw hh hbig
    exact ⟨by simp [process_image_content, hdec, hbig],
      hb.1, fun hle => (hb.2.1 hle).2, fun hlt => (hb.2.2 hlt).2⟩
  · intro hdec
    simp [process_image_content, hdec]

/-- Imaging environment decoding every payload as an oversized 4320x1080
PNG, used by the C6 witness. -/
def c6Penv : PilEnv :=
  { decode := fun _ =>
      some { width := 4320, height := 1080, format := some ("PNG") }
    save := fun d _ =>
      [d.width / 256, d.width % 256, d.height / 256, d.height % 256] }

/-- Witness for C6 at a concrete oversized image. -/
theorem c6_image_processing_witness :
    process_image_content c6Penv [1] =
      (media_of (some ("PNG")),
       b64encode (c6Penv.save
         { width := (pil_thumbnail 4320 1080 2160).1
           height := (pil_thumbnail 4320 1080 2160).2
           format := some ("PNG") } (pyFormatName (some ("PNG")))),
       (pil_thumbnail 4320 1080 2160).1,
       (pil_thumbnail 4320 1080 2160).2) ∧
    max (pil_thumbnail 4320 1080 2160).1
      (pil_thumbnail 4320 1080 2160).2 = 2160 ∧
    ((4320 : ℕ) ≤ 1080 →
      |((pil_thumbnail 4320 1080 2160).1 : ℤ) * 1080 - 2160 * 4320| ≤
        (1080 : ℤ)) ∧
    ((1080 : ℕ) < 4320 →
      |((pil_thumbnail 4320 1080 2160).2 : ℤ) * 4320 - 2160 * 1080| ≤
        (4320 : ℤ)) :=
  (c6_image_processing c6Penv [1]).2.1
    { width := 4320, height := 1080, format := some ("PNG") } rfl
    (by decide) (by decide) (by decide)

/-! ### The image renderer (`generate_image`) -/

/-- Index of a character in the base64 alphabet. -/
def b64valAux : List Char → Nat → Char → Option Nat
  | [], _, _ => none
  | a :: t, i, c => if a == c then some i else b64valAux t (i + 1) c

/-- Value of a base64 digit, `none` for characters outside the alphabet. -/
def b64val (c : Char) : Option Nat := b64valAux b64chars 0 c

/-- Decode base64 quanta of four digits into three bytes, honouring "="
padding in the final quantum; any malformed quantum is an error (Python
`binascii.Error`). -/
def b64decodeQuads : List Char → Except String (List Nat)
  | [] => Except.ok []
  | a :: b :: c :: d :: rest =>
    match b64val a, b64val b with
    | some va, some vb =>
      if c = '=' then
        if d = '=' ∧ rest = [] then Except.ok [va * 4 + vb / 16]
        else Except.error ("Invalid base64-encoded string")
      else
        match b64val c with
        | some vc =>
          if d = '=' then
            if rest = [] then
              Except.ok [va * 4 + vb / 16, vb % 16 * 16 + vc / 4]
            else Except.error ("Invalid base64-encoded string")
          else
            match b64val d with
            | some vd =>
              match b64decodeQuads rest with
              | Except.ok tl =>
                Except.ok ((va * 4 + vb / 16) :: (vb % 16 * 16 + vc / 4) ::
                  (vc % 4 * 64 + vd) :: tl)
              | Except.error e => Except.error e
            | none => Except.error ("Invalid base64-encoded string")
        | none => Except.error ("Invalid base64-encoded string")
    | _, _ => Except.error ("Invalid base64-encoded string")
  | _ => Except.error ("Invalid base64-encoded string")

/-- Python `base64.b64decode` with its default validation: characters
outside the alphabet and "=" are discarded before decoding, then the
remaining length must be a multiple of four. -/
def b64decode (s : String) : Except String (List Nat) :=
  b64decodeQuads (s.data.filter (fun ch => (b64val ch).isSome || ch == '='))

/-- One entry of the provider message's `images` list; only
`image_url.url` is read (llm_service.py line 280). -/
structure ImageEntry where
  url : String
deriving Repr, DecidableEq

/-- The message of one choice of the provider response; `images` is `none`
when the key is absent. -/
structure ProviderMessage where
  images : Option (List ImageEntry)
deriving Repr, DecidableEq

/-- The parsed JSON body of the generation endpoint response. -/
structure ProviderResponse where
  choices : List ProviderMessage
deriving Repr, DecidableEq

/-- Collaborators of `generate_image`: the POST to the chat-completions
endpoint (including `raise_for_status` and JSON parsing; arguments are the
text content and the optional attached image data URL), and the secondary
plain HTTP GET used for non-data image URLs. -/
structure GenEnv where
  post : String → Option String → Except String ProviderResponse
  http_get_bytes : String → Except String (List Nat)

/-- Outcome of a `generate_image` run: either the source-image fetch raised
before any request was posted, or a request with the given text and
optional image attachment was posted and the run produced the given
result. -/
inductive GenTrace where
  | failed (e : String)
  | posted (text : String) (image : Option String)
      (result : Except String (List Nat))
deriving Repr

/-- The posted text of a trace, when a request was posted. -/
def GenTrace.textOf : GenTrace → Option String
  | GenTrace.failed _ => none
  | GenTrace.posted t _ _ => some t

/-- Output-resolution directive appended when the source dimensions are
known (llm_service.py line 238). -/
def resolution_directive (width height : Nat) : String :=
  "\n\nIMPORTANT: Generate the output image with the exact resolution of " ++
  toString width ++ ("x") ++ toString height ++ (" pixels.")

/-- White-balance preservation directive appended when `fix_white_balance`
is false (llm_service.py line 242). -/
def wb_preservation_directive : String :=
  "\n\nCRITICAL: You MUST preserve the original white balance and color temperature of the input image. Do NOT auto-correct or neutralize the colors. If the input is warm, the output must be equally warm."

/-- Response-parsing tail of `generate_image` (llm_service.py lines
268-300): require a non-empty `choices`, read the first message; the
source's `if not image_url` check makes both a missing or empty (falsy)
`images` list and a falsy (empty-string) first URL a hard failure; a
data-URI first URL is split at the first comma and base64-decoded; a plain
URL is fetched with a secondary GET and returned verbatim. -/
def parse_image_response (genv : GenEnv)
    (r : Except String ProviderResponse) : Except String (List Nat) :=
  match r with
  | Except.error e => Except.error e
  | Except.ok result =>
    match result.choices with
    | [] => Except.error ("No choices in response")
    | message :: _ =>
      let imageUrlFound : Option String :=
        match message.images with
        | some (entry :: _) => some entry.url
        | _ => none
      match imageUrlFound with
      | none => Except.error ("No image URL found in response")
      | some image_url =>
        if image_url = "" then
          Except.error ("No image URL found in response")
        else if pyStartsWith image_url ("data:") then
          match pySplitOnce image_url (",") with
          | [_, encoded] => b64decode encoded
          | _ =>
            Except.error ("not enough values to unpack (expected 2, got 1)")
        else genv.http_get_bytes image_url

/-- Shallow embedding of `generate_image` (llm_service.py lines 207-304):
when a (truthy) original image URL is given, fetch and encode it, append
the resolution directive when both reported dimensions are positive, append
the white-balance preservation directive when `fix_white_balance` is false,
attach the image as a data URL; then post and parse the response.  The
final try/except re-raises, leaving the `Except` value unchanged. -/
def generate_image (genv : GenEnv) (fenv : FetchEnv) (penv : PilEnv)
    (prompt : String) (original_image_url : Option String)
    (fix_white_balance : Bool) : GenTrace :=
  match original_image_url with
  | none =>
    GenTrace.posted prompt none
      (parse_image_response genv (genv.post prompt none))
  | some u =>
    if u = "" then
      GenTrace.posted prompt none
        (parse_image_response genv (genv.post prompt none))
    else
      match fetch_and_encode fenv penv u with
      | Except.error e => GenTrace.failed e
      | Except.ok (media_type, image_base64, width, height) =>
        let t1 := if 0 < width ∧ 0 < height then
          prompt ++ resolution_directive width height else prompt
        let t2 := if fix_white_balance then t1
          else t1 ++ wb_preservation_directive
        let img := some (("data:") ++ media_type ++ (";base64,") ++
          image_base64)
        GenTrace.posted t2 img
          (parse_image_response genv (genv.post t2 img))

/-- Claim C7: for every provider response received by `generate_image`
whose first choice's message carries an `images` entry, the returned bytes
are the base64-decoded payload of the first URL when it is a data URI, and
the verbatim body of a secondary HTTP GET when it is a (non-empty) plain
URL; an empty-string first URL is falsy in the source's `if not image_url`
check and raises like a missing entry; when the message carries no `images`
entry, the call raises "No image URL found in response" (logged with the
full message payload), which the coordinator turns into a terminal error
job. -/
theorem c7_response_parsing (genv : GenEnv) (resp : ProviderResponse)
    (msg : ProviderMessage) (rest : List ProviderMessage)
    (hc : resp.choices = msg :: rest) :
    (∀ e es, msg.images = some (e :: es) →
      (∀ hdr enc, pyStartsWith e.url ("data:") = true →
        pySplitOnce e.url (",") = [hdr, enc] →
        parse_image_response genv (Except.ok resp) = b64decode enc) ∧
      (e.url ≠ "" → pyStartsWith e.url ("data:") = false →
        parse_image_response genv (Except.ok resp) =
          genv.http_get_bytes e.url) ∧
      (e.url = "" →
        parse_image_response genv (Except.ok resp) =
          Except.error ("No image URL found in response"))) ∧
    (msg.images = none →
      parse_image_response genv (Except.ok resp) =
        Except.error ("No image URL found in response")) := by
  constructor
  · intro e es him
    refine ⟨?_, ?_, ?_⟩
    · intro hdr enc hdata hsplit
      have hne : ¬ (e.url = "") := by
        intro h
        rw [h] at hdata
        revert hdata
        decide
      simp [parse_image_response, hc, him, hne, hdata, hsplit]
    · intro hne hdata
      simp [parse_image_response, hc, him, hne, hdata]
    · intro he
      simp [parse_image_response, hc, him, he]
  · intro him
    simp [parse_image_response, hc, him]

/-- Generation environment for the C7 and C8 witnesses. -/
def c7Genv : GenEnv :=
  { post := fun _ _ => Except.error ("unused")
    http_get_bytes := fun _ => Except.ok [] }

/-- A concrete provider message carrying one data-URI image entry. -/
def c7Msg : ProviderMessage :=
  { images := some [{ url := "data:image/png;base64,AQ==" }] }

/-- A concrete provider response wrapping `c7Msg`. -/
def c7Resp : ProviderResponse := { choices := [c7Msg] }

/-- Witness for C7: the data-URI branch at a concrete response. -/
theorem c7_response_parsing_witness :
    parse_image_response c7Genv (Except.ok c7Resp) = b64decode ("AQ==") :=
  ((c7_response_parsing c7Genv c7Resp c7Msg [] rfl).1
    { url := "data:image/png;base64,AQ==" } [] rfl).1
    ("data:image/png;base64") ("AQ==") (by decide) (by decide)

/-- Claim C8: when `generate_image` is given a (non-empty) original image
URL whose fetch/encode succeeds, the posted prompt text is the input prompt
with the output-resolution directive naming the reported width and height
appended exactly when both dimensions are positive (skipped at 0/0), and
with the strict white-balance-preservation directive appended if and only
if `fix_white_balance` is false. -/
theorem c8_prompt_directives (genv : GenEnv) (fenv : FetchEnv)
    (penv : PilEnv) (prompt u media_type image_base64 : String)
    (width height : Nat) (fix_white_balance : Bool) (hu : u ≠ "")
    (hf : fetch_and_encode fenv penv u =
      Except.ok (media_type, image_base64, width, height)) :
    GenTrace.textOf
      (generate_image genv fenv penv prompt (some u) fix_white_balance) =
      some ((if 0 < width ∧ 0 < height then
          prompt ++ resolution_directive width height else prompt) ++
        (if fix_white_balance then "" else wb_preservation_directive)) := by
  cases fix_white_balance <;>
    by_cases hwh : 0 < width ∧ 0 < height <;>
      simp [generate_image, hu, hf, GenTrace.textOf, hwh]

/-- Imaging environment decoding every payload as a small 2x3 image, used
by the C8 witness. -/
def c8Penv : PilEnv :=
  { decode := fun _ => some { width := 2, height := 3, format := none }
    save := fun _ _ => [] }

/-- Witness for C8 at a concrete URL, fetch environment and prompt. -/
theorem c8_prompt_directives_witness :
    GenTrace.textOf (generate_image c7Genv c5Env c8Penv ("stage this room")
      (some ("http://s/b/o")) false) =
      some ((if 0 < 2 ∧ 0 < 3 then
          ("stage this room") ++ resolution_directive 2 3
        else ("stage this room")) ++
        (if false then "" else wb_preservation_directive)) :=
  c8_prompt_directives c7Genv c5Env c8Penv ("stage this room")
    ("http://s/b/o") ("image/jpeg") ("CQ==") 2 3 false (by decide) rfl

/-! ### The prompt synthesizer (`generate_staged_image_prompt`)

Substring occurrence is developed on the character lists underlying
`String`: `within p s` says `p` occurs contiguously in `s`.  Occurrences in
a concatenation either lie inside one part or straddle a boundary; the
straddle cases are excluded by two decidable side conditions (no non-empty
suffix of the fixed part is a prefix of the pattern, and the first character
of the part after a spliced variable does not occur in the pattern). -/

/-- `p` occurs contiguously inside `s`. -/
def within (p s : List Char) : Prop := ∃ u v, s = u ++ p ++ v

/-- Decider for `within`. -/
def withinB (p : List Char) : List Char → Bool
  | [] => isLead p []
  | c :: t => isLead p (c :: t) || withinB p t

/-- Some non-empty suffix of `a` is a prefix of `P`. -/
def headOv : List Char → List Char → Bool
  | [], _ => false
  | c :: t, P => isLead (c :: t) P || headOv t P

/-- `s` is non-empty and its first character does not occur in `P`. -/
def headClear (s P : List Char) : Bool :=
  match s with
  | [] => false
  | c :: _ => decide (¬ c ∈ P)

/-- `p` occurs contiguously inside the string `s`. -/
def strWithin (p s : String) : Prop := within p.data s.data

theorem isLead_iff (p s : List Char) :
    isLead p s = true ↔ ∃ v, s = p ++ v := by
  induction p generalizing s with
  | nil => simp [isLead]
  | cons a p ih =>
    cases s with
    | nil => simp [isLead]
    | cons b s' =>
      simp only [isLead, Bool.and_eq_true, beq_iff_eq, ih, List.cons_append,
        List.cons.injEq]
      constructor
      · rintro ⟨rfl, v, rfl⟩
        exact ⟨v, rfl, rfl⟩
      · rintro ⟨v, rfl, rfl⟩
        exact ⟨rfl, v, rfl⟩

theorem withinB_iff (p s : List Char) : withinB p s = true ↔ within p s := by
  induction s with
  | nil =>
    simp only [withinB, isLead_iff, within]
    constructor
    · rintro ⟨v, hv⟩
      exact ⟨[], v, by simp [hv]⟩
    · rintro ⟨u, v, huv⟩
      refine ⟨v, ?_⟩
      have hu : u = [] := by
        cases u with
        | nil => rfl
        | cons a u' => simp at huv
      subst hu
      simpa using huv
  | cons c t ih =>
    simp only [withinB, Bool.or_eq_true, isLead_iff, ih, within]
    constructor
    · rintro (⟨v, hv⟩ | ⟨u, v, rfl⟩)
      · exact ⟨[], v, by simp [hv]⟩
      · exact ⟨c :: u, v, rfl⟩
    · rintro ⟨u, v, huv⟩
      cases u with
      | nil => left; exact ⟨v, by simpa using huv⟩
      | cons a u' =>
        right
        rw [List.cons_append, List.cons_append] at huv
        injection huv with h1 h2
        exact ⟨u', v, h2⟩

theorem not_within_of_withinB {p s : List Char} (h : withinB p s = false) :
    ¬ within p s := by
  intro hw
  have := (withinB_iff p s).2 hw
  rw [h] at this
  exact Bool.noConfusion this

theorem within_mono_left {p a : List Char} (b : List Char)
    (h : within p a) : within p (a ++ b) := by
  obtain ⟨u, v, rfl⟩ := h
  exact ⟨u, v ++ b, by simp⟩

theorem within_mono_right {p b : List Char} (a : List Char)
    (h : within p b) : within p (a ++ b) := by
  obtain ⟨u, v, rfl⟩ := h
  exact ⟨a ++ u, v, by simp⟩

theorem within_append_cases {p a b : List Char} (h : within p (a ++ b)) :
    within p a ∨ within p b ∨
    ∃ p1 p2, p = p1 ++ p2 ∧ p1 ≠ [] ∧ p2 ≠ [] ∧
      (∃ u, a = u ++ p1) ∧ (∃ v, b = p2 ++ v) := by
  obtain ⟨u, v, huv⟩ := h
  rw [List.append_assoc] at huv
  rcases List.append_eq_append_iff.1 huv with ⟨w, hw1, hw2⟩ | ⟨w, hw1, hw2⟩
  · right; left
    exact ⟨w, v, by rw [hw2, ← List.append_assoc]⟩
  · rcases List.append_eq_append_iff.1 hw2 with ⟨z, hz1, hz2⟩ | ⟨z, hz1, hz2⟩
    · left
      exact ⟨u, z, by rw [hw1, hz1, List.append_assoc]⟩
    · cases hw : w with
      | nil =>
        right; left
        subst hw
        simp at hz1
        exact ⟨[], v, by rw [hz2, hz1]; simp⟩
      | cons w0 w' =>
        cases hz : z with
        | nil =>
          left
          subst hz
          simp at hz1
          exact ⟨u, [], by rw [hw1, ← hz1]; simp⟩
        | cons z0 z' =>
          right; right
          exact ⟨w, z, hz1, by rw [hw]; simp, by rw [hz]; simp,
            ⟨u, hw1⟩, ⟨v, hz2⟩⟩

theorem headOv_of {a P p1 : List Char} (hne : p1 ≠ [])
    (ha : ∃ u, a = u ++ p1) (hP : ∃ w, P = p1 ++ w) :
    headOv a P = true := by
  obtain ⟨u, rfl⟩ := ha
  induction u with
  | nil =>
    obtain ⟨c, t, rfl⟩ := List.exists_cons_of_ne_nil hne
    simp only [List.nil_append, headOv, Bool.or_eq_true]
    left
    rw [isLead_iff]
    exact hP
  | cons x u ih =>
    simp only [List.cons_append, headOv, Bool.or_eq_true]
    right
    exact ih

theorem headClear_append {s P : List Char} (z : List Char)
    (h : headClear s P = true) : headClear (s ++ z) P = true := by
  cases s with
  | nil => simp [headClear] at h
  | cons c t => simpa [headClear] using h

theorem not_within_fixed {P F R : List Char} (h1 : withinB P F = false)
    (h2 : headOv F P = false) (h3 : ¬ within P R) :
    ¬ within P (F ++ R) := by
  intro h
  rcases within_append_cases h with hF | hR |
    ⟨p1, p2, hp, hne1, hne2, hu, hv⟩
  · exact not_within_of_withinB h1 hF
  · exact h3 hR
  · have := headOv_of hne1 hu ⟨p2, hp⟩
    rw [h2] at this
    exact Bool.noConfusion this

theorem not_within_var {P x R : List Char} (hx : ¬ within P x)
    (hR : ¬ within P R) (hc : headClear R P = true) :
    ¬ within P (x ++ R) := by
  intro h
  rcases within_append_cases h with h1 | h2 |
    ⟨p1, p2, hp, hne1, hne2, hu, ⟨v, hv⟩⟩
  · exact hx h1
  · exact hR h2
  · obtain ⟨c, t, rfl⟩ := List.exists_cons_of_ne_nil hne2
    have hcP : c ∈ P := by
      rw [hp]
      exact List.mem_append_right _ (List.mem_cons_self _ _)
    rw [hv] at hc
    simp only [List.cons_append, headClear, decide_eq_true_eq] at hc
    exact hc hcP

set_option maxRecDepth 10000

/-- `wb_instruction` branch for `fix_white_balance = True`
(llm_service.py line 164). -/
def wbCorrect : String := "CORRECT the white balance if the original image is too warm (yellow) or cool (blue), making it look like high-end neutral architectural photography, BUT ensure the original colors of painted surfaces (walls, etc.) are preserved and not altered by the correction."

/-- `wb_instruction` branch for `fix_white_balance = False`
(llm_service.py line 166). -/
def wbPreserve : String := "STRICTLY PRESERVE the original white balance, color temperature, and lighting tint of the photo exactly as it is. Do NOT attempt to \x27fix\x27 or \x27neutralize\x27 the colors. If the original photo is warm/yellow or cool/blue, the final rendered image MUST maintain that exact same warmth or coolness."

/-- `decor_instruction` branch for `wall_decorations = True`
(llm_service.py line 168). -/
def decorAdd : String := "Add furniture and wall decor, ensuring that any wall-mounted items do not require drilling (e.g., use leaning art, mirrors on the floor, or lightweight decor)."

/-- `decor_instruction` branch for `wall_decorations = False`
(llm_service.py line 168). -/
def decorBare : String := "Add furniture only. Keep walls completely bare of any art or decorations."

/-- The bare-walls phrase named by the claim. -/
def bareWallsPhrase : String := "Keep walls completely bare"

/-- Template text of the synthesizer prompt before the `wb_instruction`
splice (llm_service.py lines 170-179). -/
def tplA : String := "\n    You are a professional architectural photographer and interior designer.\n    Create a highly detailed, photorealistic prompt for generating a virtually staged version of this room.\n    \n    CRITICAL INSTRUCTIONS:\n    1. The goal is to VIRTUAL STAGE the EXISTING room.\n    2. You MUST preserve the EXACT structure of the room (walls, ceiling, floor plan, windows, doors).\n    3. You MUST preserve the EXACT camera angle and perspective of the original image.\n    4. You MUST preserve the current natural lighting direction, shadows, and reflections from windows/surfaces.\n    5. "

/-- Template text between the two instruction splices. -/
def tplB : String := "\n    6. "

/-- Template text between the `decor_instruction` and `analysis` splices. -/
def tplC : String := " DO NOT remove or alter architectural elements.\n    \n    Original Room Analysis:\n    "

/-- Template text between the `analysis` and `placement_plan` splices. -/
def tplD : String := "\n    \n    Furniture Plan:\n    "

/-- Template text between the `placement_plan` and `style_preset` splices. -/
def tplE : String := "\n    \n    Style: "

/-- Template text between the `style_preset` and `original_image_url`
splices. -/
def tplF : String := "\n    \n    Produce a single paragraph prompt that includes lighting details, texture descriptions, specific camera settings, and photorealistic keywords.\n    The prompt should explicitly consist of instructions to the generation model to \"render the following furniture into the provided room image without changing the room\x27s geometry or perspective\".\n    \n    Original Image URL for reference: "

/-- Template text after the `original_image_url` splice. -/
def tplG : String := "\n    "

/-- The fully fixed head of the compiled prompt: everything before the
`analysis` splice, with the two instruction branches filled in. -/
def tplHead (wb decor : String) : String :=
  tplA ++ wb ++ tplB ++ decor ++ tplC

/-- The compiled instruction built by `generate_staged_image_prompt`
(llm_service.py lines 163-194): the two flag-selected instruction branches
and the four free-text inputs spliced into the fixed template.  The
function then makes a single text-completion call with this prompt
(modelled by the `generate_staged_image_prompt` collaborator of
`CoordEnv`). -/
def generate_staged_image_prompt_text (original_image_url analysis
    placement_plan style_preset : String)
    (fix_white_balance wall_decorations : Bool) : String :=
  let wb_instruction := if fix_white_balance then wbCorrect else wbPreserve
  let decor_instruction := if wall_decorations then decorAdd else decorBare
  tplA ++ wb_instruction ++ tplB ++ decor_instruction ++ tplC ++ analysis ++
    tplD ++ placement_plan ++ tplE ++ style_preset ++ tplF ++
    original_image_url ++ tplG

/-- The compiled prompt's characters, decomposed at the splice points. -/
theorem prompt_data (url analysis plan style : String) (fwb wd : Bool) :
    (generate_staged_image_prompt_text url analysis plan style fwb wd).data =
      (tplHead (if fwb then wbCorrect else wbPreserve)
        (if wd then decorAdd else decorBare)).data ++
      (analysis.data ++ (tplD.data ++ (plan.data ++ (tplE.data ++
        (style.data ++ (tplF.data ++ (url.data ++ tplG.data))))))) := by
  simp [generate_staged_image_prompt_text, tplHead, String.data_append,
    List.append_assoc]

/-- A pattern that occurs in none of the four spliced texts, does not occur
in and does not overlap out of any fixed segment, and cannot straddle a
splice boundary (each fixed segment after a spliced text starts with a
character outside the pattern) does not occur in the compiled prompt. -/
theorem not_within_template {P H D E F G x1 x2 x3 x4 : List Char}
    (hx1 : ¬ within P x1) (hx2 : ¬ within P x2) (hx3 : ¬ within P x3)
    (hx4 : ¬ within P x4)
    (hH1 : withinB P H = false) (hH2 : headOv H P = false)
    (hD1 : withinB P D = false) (hD2 : headOv D P = false)
    (hDc : headClear D P = true)
    (hE1 : withinB P E = false) (hE2 : headOv E P = false)
    (hEc : headClear E P = true)
    (hF1 : withinB P F = false) (hF2 : headOv F P = false)
    (hFc : headClear F P = true)
    (hG1 : withinB P G = false)
    (hGc : headClear G P = true) :
    ¬ within P
      (H ++ (x1 ++ (D ++ (x2 ++ (E ++ (x3 ++ (F ++ (x4 ++ G)))))))) :=
  not_within_fixed hH1 hH2
    (not_within_var hx1
      (not_within_fixed hD1 hD2
        (not_within_var hx2
          (not_within_fixed hE1 hE2
            (not_within_var hx3
              (not_within_fixed hF1 hF2
                (not_within_var hx4 (not_within_of_withinB hG1) hGc))
              (headClear_append _ hFc)))
          (headClear_append _ hEc)))
      (headClear_append _ hDc))

/-- Claim C9: with `wall_decorations = false` the compiled instruction
contains the bare-walls branch ("Keep walls completely bare") and not the
wall-decor-insertion instruction; with `fix_white_balance = true` it
contains the white-balance correction instruction and not the preservation
instruction; the opposite branch strings are spliced in when the flags are
inverted.  The spliced free-text inputs (analysis, plan, style, URL) are
assumed not to contain the excluded instruction strings themselves. -/
theorem c9_prompt_branches (url analysis plan style : String) (b c : Bool)
    (h1 : ¬ strWithin decorAdd url) (h2 : ¬ strWithin decorAdd analysis)
    (h3 : ¬ strWithin decorAdd plan) (h4 : ¬ strWithin decorAdd style)
    (g1 : ¬ strWithin wbPreserve url) (g2 : ¬ strWithin wbPreserve analysis)
    (g3 : ¬ strWithin wbPreserve plan) (g4 : ¬ strWithin wbPreserve style) :
    strWithin bareWallsPhrase
      (generate_staged_image_prompt_text url analysis plan style b false) ∧
    ¬ strWithin decorAdd
      (generate_staged_image_prompt_text url analysis plan style b false) ∧
    strWithin wbCorrect
      (generate_staged_image_prompt_text url analysis plan style true c) ∧
    ¬ strWithin wbPreserve
      (generate_staged_image_prompt_text url analysis plan style true c) ∧
    strWithin decorAdd
      (generate_staged_image_prompt_text url analysis plan style b true) ∧
    strWithin wbPreserve
      (generate_staged_image_prompt_text url analysis plan style false c) := by
  refine ⟨?_, ?_, ?_, ?_, ?_, ?_⟩
  · cases b <;>
      (show within (bareWallsPhrase.data) _;
       rw [prompt_data];
       exact within_mono_left _ ((withinB_iff _ _).1 (by decide)))
  · cases b <;>
      (show ¬ within (decorAdd.data) _;
       rw [prompt_data];
       exact not_within_template h2 h3 h4 h1 (by decide) (by decide)
         (by decide) (by decide) (by decide) (by decide) (by decide)
         (by decide) (by decide) (by decide) (by decide) (by decide)
         (by decide))
  · cases c <;>
      (show within (wbCorrect.data) _;
       rw [prompt_data];
       exact within_mono_left _ ((withinB_iff _ _).1 (by decide)))
  · cases c <;>
      (show ¬ within (wbPreserve.data) _;
       rw [prompt_data];
       exact not_within_template g2 g3 g4 g1 (by decide) (by decide)
         (by decide) (by decide) (by decide) (by decide) (by decide)
         (by decide) (by decide) (by decide) (by decide) (by decide)
         (by decide))
  · cases b <;>
      (show within (decorAdd.data) _;
       rw [prompt_data];
       exact within_mono_left _ ((withinB_iff _ _).1 (by decide)))
  · cases c <;>
      (show within (wbPreserve.data) _;
       rw [prompt_data];
       exact within_mono_left _ ((withinB_iff _ _).1 (by decide)))

/-- Witness for C9 at concrete inputs free of the instruction strings. -/
theorem c9_prompt_branches_witness :
    strWithin bareWallsPhrase
      (generate_staged_image_prompt_text ("u") ("a") ("p") ("s")
        true false) ∧
    ¬ strWithin decorAdd
      (generate_staged_image_prompt_text ("u") ("a") ("p") ("s")
        true false) ∧
    strWithin wbCorrect
      (generate_staged_image_prompt_text ("u") ("a") ("p") ("s")
        true true) ∧
    ¬ strWithin wbPreserve
      (generate_staged_image_prompt_text ("u") ("a") ("p") ("s")
        true true) ∧
    strWithin decorAdd
      (generate_staged_image_prompt_text ("u") ("a") ("p") ("s")
        true true) ∧
    strWithin wbPreserve
      (generate_staged_image_prompt_text ("u") ("a") ("p") ("s")
        false true) :=
  c9_prompt_branches ("u") ("a") ("p") ("s") true true
    (not_within_of_withinB (by decide)) (not_within_of_withinB (by decide))
    (not_within_of_withinB (by decide)) (not_within_of_withinB (by decide))
    (not_within_of_withinB (by decide)) (not_within_of_withinB (by decide))
    (not_within_of_withinB (by decide)) (not_within_of_withinB (by decide))
